import Mathlib

set_option maxHeartbeats 1000000

/-
Verification of the SAPI_POC voice-server IPC core: a shallow embedding of
the pipe server (VoiceServer/VoiceServer.py and VoiceEngineServer.py), the
chunked transport codec, and the voice-registration store, together with
theorems settling the specified properties against that embedding.
-/

/-- A JSON document exchanged over the named pipe. -/
inductive Json where
  | str : String → Json
  | arr : List Json → Json
  | obj : List (String × Json) → Json
  | null : Json

/-- One write performed on a connected pipe: a single WriteFile of a JSON
response, a chunked transmission of a JSON response via send_large_data, or a
raw audio chunk. -/
inductive PipeWrite where
  | direct : Json → PipeWrite
  | chunked : Json → PipeWrite
  | audio : List Nat → PipeWrite

/-- A decoded client request; one optional field per key the servers read
with request.get(...). -/
structure Request where
  action : Option String
  engine : Option String
  voice_iso_code : Option String
  voice : Option String
  text : Option String
  engine_voice_combo : Option String

/-- The system configuration store (the HKLM registry): which key paths exist,
and the string values stored under each (key path, value name). -/
@[ext] structure Reg where
  keys : String → Bool
  vals : String → String → Option String

/-- winreg.CreateKey: make the key path exist. -/
def createKey (r : Reg) (kp : String) : Reg :=
  { r with keys := fun k => if k = kp then true else r.keys k }

/-- winreg.SetValueEx: set a named string value under a key path. -/
def setValueEx (r : Reg) (kp vn v : String) : Reg :=
  { r with vals := fun k n => if k = kp ∧ n = vn then some v else r.vals k n }

/-- One registry operation performed by the registration code. -/
inductive WriteOp where
  | ckey : String → WriteOp
  | setv : String → String → String → WriteOp

def applyOp : WriteOp → Reg → Reg
  | .ckey p, r => createKey r p
  | .setv p n v, r => setValueEx r p n v

/-- Run a straight-line sequence of registry operations in program order. -/
def applyOps : List WriteOp → Reg → Reg
  | [], r => r
  | op :: ops, r => applyOps ops (applyOp op r)

def oElse (a b : Option String) : Option String :=
  match a with
  | some x => some x
  | none => b

def valOf : WriteOp → String → String → Option String
  | .ckey _, _, _ => none
  | .setv p n v, k, m => if k = p ∧ m = n then some v else none

/-- The value left at (key, name) by a sequence of operations: the last
matching SetValueEx wins. -/
def lastVal : List WriteOp → String → String → Option String
  | [], _, _ => none
  | op :: ops, k, m => oElse (lastVal ops k m) (valOf op k m)

def opMakesKey : WriteOp → String → Bool
  | .ckey p, k => decide (k = p)
  | .setv _ _ _, _ => false

/-- 64-bit registry path of the shared SAPI engine COM registration. -/
def sapi64Path : String :=
  "SOFTWARE\\Microsoft\\Speech\\Voices\\Tokens\\PYTTS-Microsoft\\InprocServer32"

/-- 32-bit (WOW6432Node) registry path of the shared SAPI engine COM
registration. -/
def sapi32Path : String :=
  "SOFTWARE\\WOW6432Node\\Microsoft\\Speech\\Voices\\Tokens\\PYTTS-Microsoft\\InprocServer32"

/-- 64-bit voice token path used by register_voice. -/
def tokensPath64 (tok : String) : String :=
  "SOFTWARE\\Microsoft\\Speech\\Voices\\Tokens\\" ++ tok

/-- 32-bit voice token path used by register_voice. -/
def tokensPath32 (tok : String) : String :=
  "SOFTWARE\\WOW6432Node\\Microsoft\\Speech\\Voices\\Tokens\\" ++ tok

/-- The registry operations of PipeServerThread.register_sapi_engine: for each
of the 64-bit and 32-bit key paths, CreateKey, then set the default value to
the engine DLL path and ThreadingModel to Both. -/
def sapiOps (engine_dll : String) : List WriteOp :=
  [ .ckey sapi64Path,
    .setv sapi64Path "" engine_dll,
    .setv sapi64Path "ThreadingModel" "Both",
    .ckey sapi32Path,
    .setv sapi32Path "" engine_dll,
    .setv sapi32Path "ThreadingModel" "Both" ]

/-- PipeServerThread.register_sapi_engine (VoiceServer/VoiceServer.py): always
returns True in our model, where the registry writes themselves do not fail. -/
def register_sapi_engine (engine_dll : String) (r : Reg) : Reg × Bool :=
  (applyOps (sapiOps engine_dll) r, true)

/-- Split a character list at the first dash; none when no dash occurs. -/
def splitCharsAtDash : List Char → Option (List Char × List Char)
  | [] => none
  | c :: cs =>
    if c = '-' then some ([], cs)
    else
      match splitCharsAtDash cs with
      | none => none
      | some (a, b) => some (c :: a, b)

/-- voice_id.split("-", 1) followed by unpacking into two names: yields the
parts before and after the first dash, and fails when there is no dash. -/
def splitFirstDash (s : String) : Option (String × String) :=
  match splitCharsAtDash s.data with
  | none => none
  | some (a, b) => some (String.mk a, String.mk b)

/-- The nine SetValueEx calls register_voice performs under one token key
path, preceded by CreateKey, in source order. -/
def voiceKeyOps (libs engine_name voice_name default_value p : String) :
    List WriteOp :=
  [ .ckey p,
    .setv p "" default_value,
    .setv p "Name" voice_name,
    .setv p "Vendor" engine_name,
    .setv p "Language" "409",
    .setv p "Gender" "Female",
    .setv p "Age" "Adult",
    .setv p "Path" libs,
    .setv p "Module" "voices",
    .setv p "Class" (engine_name ++ "Voice") ]

/-- All registry operations of one register_voice call: the record written
under the 64-bit token path, then under the 32-bit token path. -/
def voiceOps (libs engine_name voice_name : String) : List WriteOp :=
  voiceKeyOps libs engine_name voice_name
      (engine_name ++ " - " ++ voice_name ++ " (409)")
      (tokensPath64 ("PYTTS-" ++ engine_name)) ++
    voiceKeyOps libs engine_name voice_name
      (engine_name ++ " - " ++ voice_name ++ " (409)")
      (tokensPath32 ("PYTTS-" ++ engine_name))

/-- PipeServerThread.register_voice (VoiceServer/VoiceServer.py). A missing or
dash-free voice_id makes voice_id.split (or the tuple unpacking) raise; the
except handler then hits the unbound name voice_name and itself raises, so the
whole call raises. On a well-formed id the record is written under both token
paths and True is returned. -/
def register_voice (libs : String) (voice_id : Option String) (r : Reg) :
    Except String (Reg × Bool) :=
  match voice_id with
  | none => Except.error "NameError"
  | some v =>
    match splitFirstDash v with
    | none => Except.error "NameError"
    | some (engine_name, voice_name) =>
      Except.ok (applyOps (voiceOps libs engine_name voice_name) r, true)

/-- PipeServerThread.is_engine_registered: OpenKey succeeds iff the key path
exists. -/
def is_engine_registered (r : Reg) (key_path : String) : Bool :=
  r.keys key_path

/-- The set_voice branch of PipeServerThread.run (VoiceServer/VoiceServer.py):
register the shared SAPI engine unless its 64-bit InprocServer32 key already
exists, then register the voice and write the status response; a raise from
register_voice escapes with no response written. -/
def handleSetVoice (libs : String) (req : Request) (r : Reg) :
    List PipeWrite × Reg × Except String Unit :=
  let engine_dll := libs ++ "\\pysapittsengine.dll"
  let r1 := if is_engine_registered r sapi64Path then r
    else (register_sapi_engine engine_dll r).1
  match register_voice libs req.voice_iso_code r1 with
  | Except.error e => ([], r1, Except.error e)
  | Except.ok (r2, success) =>
    ([PipeWrite.direct (Json.obj
        [("status", Json.str (if success then "success" else "failure"))])],
      r2, Except.ok ())

/-- Outcome of a tts_engine.get_voices() call: an exception, or a returned
value that is either None or a list of voice objects. -/
inductive GetVoicesResult where
  | raised : String → GetVoicesResult
  | value : Option (List Json) → GetVoicesResult

def errorResp (message : String) : Json :=
  Json.obj [("status", Json.str "error"), ("message", Json.str message)]

def successVoicesResp (voices : List Json) : Json :=
  Json.obj [("status", Json.str "success"), ("voices", Json.arr voices)]

def enginesResp (names : List String) : Json :=
  Json.obj [("engines", Json.arr (names.map Json.str))]

/-- PipeServerThread.fetch_voices (VoiceEngineServer.py): returns the response
dict; an empty or None voice list yields the explicit error response, and an
exception from get_voices yields an error response with its message. -/
def fetch_voices (gv : GetVoicesResult) : Json :=
  match gv with
  | .raised e => errorResp e
  | .value none => errorResp "No voices found"
  | .value (some voices) =>
    if voices.length = 0 then errorResp "No voices found"
    else successVoicesResp voices

/-- PipeServerThread.fetch_voices (VoiceServer/VoiceServer.py): same decision,
but each response is transmitted with send_large_data on the pipe. -/
def fetch_voicesVS (gv : GetVoicesResult) : List PipeWrite :=
  match gv with
  | .raised e => [PipeWrite.chunked (errorResp e)]
  | .value none => [PipeWrite.chunked (errorResp "No voices found")]
  | .value (some voices) =>
    if voices.length = 0 then [PipeWrite.chunked (errorResp "No voices found")]
    else [PipeWrite.chunked (successVoicesResp voices)]

/-- One initialized backend held by the VoiceServer revision: its dict key and
the behavior of its get_voices and speak_streamed calls. speak_streamed yields
the audio chunks produced before a possible exception. -/
structure EngineEntry where
  name : String
  get_voices : GetVoicesResult
  speak_streamed : String → List (List Nat) × Except String Unit

/-- The VoiceServer pipe-server state after init_engines. -/
structure ServerCtx where
  engines : List EngineEntry
  available_engines : List String
  libs_directory : String

/-- Dict lookup engine_name in self.engines. -/
def findEngineVS (ctx : ServerCtx) (n : String) : Option EngineEntry :=
  ctx.engines.find? (fun e => e.name == n)

/-- The request dispatch of PipeServerThread.run (VoiceServer/VoiceServer.py):
the if/elif chain on request.get("action"). Returns the pipe writes performed,
the registry state after, and whether an exception escaped to the loop. -/
def dispatchVS (ctx : ServerCtx) (r : Reg) (req : Request) :
    List PipeWrite × Reg × Except String Unit :=
  if req.action = some "list_engines" then
    ([PipeWrite.direct (enginesResp ctx.available_engines)], r, Except.ok ())
  else if req.action = some "list_voices" then
    match req.engine with
    | none => ([], r, Except.ok ())
    | some engine_name =>
      match findEngineVS ctx engine_name with
      | none => ([], r, Except.ok ())
      | some eng => (fetch_voicesVS eng.get_voices, r, Except.ok ())
  else if req.action = some "set_voice" then
    handleSetVoice ctx.libs_directory req r
  else if req.action = some "speak" then
    match req.engine with
    | none => ([], r, Except.ok ())
    | some engine_name =>
      match findEngineVS ctx engine_name with
      | none => ([], r, Except.ok ())
      | some eng =>
        match req.text with
        | none => ([], r, Except.error "TypeError: NoneType is not subscriptable")
        | some t =>
          let s := eng.speak_streamed t
          (s.1.map PipeWrite.audio, r, s.2)
  else ([], r, Except.ok ())

/-- One initialized backend of the VoiceEngineServer revision. -/
structure VESEngine where
  name : String
  get_voices : GetVoicesResult
  set_voice_outcome : Except String Unit

/-- The VoiceEngineServer pipe-server state after init_engines. -/
structure VESCtx where
  engines : List VESEngine
  available_engines : List String

def findEngineVES (ctx : VESCtx) (n : String) : Option VESEngine :=
  ctx.engines.find? (fun e => e.name == n)

/-- Parameters of def speak_text_streamed(self, tts_engine, text), self
excluded. -/
def speak_text_streamed_paramCount : Nat := 2

/-- Arguments of the call self.speak_text_streamed(pipe, tts_engine, text),
self excluded. -/
def speak_text_call_argCount : Nat := 3

/-- Body of speak_text_streamed (VoiceEngineServer.py): plays the audio
locally inside its own try/except and never writes to the pipe. -/
def speak_text_streamed_body : Unit → List PipeWrite := fun _ => []

/-- Python call semantics: a positional call with the wrong number of
arguments raises TypeError before the body runs. -/
def callPy (paramCount argCount : Nat) (body : Unit → List PipeWrite) :
    Except String (List PipeWrite) :=
  if argCount = paramCount then Except.ok (body ())
  else Except.error "TypeError: wrong number of arguments"

/-- The request dispatch of PipeServerThread.run (VoiceEngineServer.py). The
second elif on set_voice in the source is dead code (the first matching elif
runs), so set_voice only calls tts_engine.set_voice and writes no response. -/
def dispatchVES (ctx : VESCtx) (req : Request) :
    List PipeWrite × Except String Unit :=
  if req.action = some "list_engines" then
    ([PipeWrite.direct (enginesResp ctx.available_engines)], Except.ok ())
  else if req.action = some "list_voices" then
    match req.engine with
    | none => ([], Except.ok ())
    | some engine_name =>
      match findEngineVES ctx engine_name with
      | none => ([], Except.ok ())
      | some eng => ([PipeWrite.direct (fetch_voices eng.get_voices)], Except.ok ())
  else if req.action = some "set_voice" then
    match req.engine with
    | none => ([], Except.ok ())
    | some engine_name =>
      match findEngineVES ctx engine_name with
      | none => ([], Except.ok ())
      | some eng => ([], eng.set_voice_outcome)
  else if req.action = some "speak_text" then
    match req.engine with
    | none => ([], Except.ok ())
    | some engine_name =>
      match findEngineVES ctx engine_name with
      | none => ([], Except.ok ())
      | some _eng =>
        match req.text with
        | none => ([], Except.error "TypeError: NoneType is not subscriptable")
        | some _t =>
          match callPy speak_text_streamed_paramCount speak_text_call_argCount
              speak_text_streamed_body with
          | Except.error e => ([], Except.error e)
          | Except.ok ws => (ws, Except.ok ())
  else ([], Except.ok ())

/-- chunk_size of send_large_data: 60 KB per chunk. -/
def chunk_size : Nat := 60 * 1024

/-- Per-call read ceiling of the receive loop: ReadFile(pipe, 64 * 1024). -/
def read_size : Nat := 64 * 1024

/-- The chunking loop of send_large_data: successive chunk_size slices of the
payload, one WriteFile each. -/
def sendChunks (data : List Nat) : List (List Nat) :=
  if h : data = [] then []
  else data.take chunk_size :: sendChunks (data.drop chunk_size)
termination_by data.length
decreasing_by
  simp only [List.length_drop]
  exact Nat.sub_lt (List.length_pos.mpr h) (by decide)

/-- PipeServerThread.send_large_data: the payload chunks followed by the empty
terminator write. -/
def send_large_data (data : List Nat) : List (List Nat) :=
  sendChunks data ++ [[]]

/-- The read loop of receive_and_decompress (RegisterVoice.py): concatenate
message-mode reads until a chunk shorter than the 64 KB read size arrives. -/
def receiveLoop : List (List Nat) → List Nat
  | [] => []
  | c :: rest => if c.length < read_size then c else c ++ receiveLoop rest

/-- decompress_response (RegisterVoice.py): zlib.decompress wrapped in
try/except, returning None on zlib.error instead of raising. The zlib library
itself is an external collaborator, passed in as a function. -/
def decompress_response (zlib_decompress : List Nat → Except String (List Nat))
    (compressed_response : List Nat) : Option (List Nat) :=
  match zlib_decompress compressed_response with
  | Except.ok response_data => some response_data
  | Except.error _ => none

/-- receive_and_decompress (RegisterVoice.py): run the read loop, then attempt
decompression of the accumulated bytes. -/
def receive_and_decompress (zlib_decompress : List Nat → Except String (List Nat))
    (msgs : List (List Nat)) : Option (List Nat) :=
  decompress_response zlib_decompress (receiveLoop msgs)

/-- The engine names probed by load_config and init_engines, in their fixed
source order (VoiceServer/VoiceServer.py). -/
def knownEngines : List String := ["Microsoft", "Google", "Polly", "SherpaOnnx"]

/-- load_config: the keys of the engines dict, inserted in the fixed source
order for each section present in the configuration. -/
def load_config (sections : List String) : List String :=
  let engines : List String := []
  let engines := if sections.contains "Microsoft" then engines ++ ["Microsoft"] else engines
  let engines := if sections.contains "Google" then engines ++ ["Google"] else engines
  let engines := if sections.contains "Polly" then engines ++ ["Polly"] else engines
  let engines := if sections.contains "SherpaOnnx" then engines ++ ["SherpaOnnx"] else engines
  engines

/-- init_engines (VoiceServer/VoiceServer.py): for each known engine present in
the configuration, construct the client and validate with get_voices; on
success insert it, on failure log and omit it. probe gives the success of that
construction-and-validation step per engine. -/
def init_engines (probe : String → Bool) (engines : List String) : List String :=
  let inited : List String := []
  let inited := if engines.contains "Microsoft" then
    (if probe "Microsoft" then inited ++ ["Microsoft"] else inited) else inited
  let inited := if engines.contains "Google" then
    (if probe "Google" then inited ++ ["Google"] else inited) else inited
  let inited := if engines.contains "Polly" then
    (if probe "Polly" then inited ++ ["Polly"] else inited) else inited
  let inited := if engines.contains "SherpaOnnx" then
    (if probe "SherpaOnnx" then inited ++ ["SherpaOnnx"] else inited) else inited
  inited

/-- Environment of one iteration of the accept loop: the outcome of each
blocking call, and the decode-plus-dispatch step as a function of the bytes
read. -/
structure ConnEnv where
  create : Except String Unit
  connect : Except String Unit
  read : Except String (Nat × List Nat)
  handle : List Nat → List PipeWrite × Except String Unit

/-- The try block of one accept-loop iteration: CreateNamedPipe,
ConnectNamedPipe, ReadFile, then the dispatch when the read result is 0.
Returns whether the pipe variable was assigned, the writes performed, and the
exception outcome. -/
def connBody (env : ConnEnv) : Bool × List PipeWrite × Except String Unit :=
  match env.create with
  | Except.error e => (false, [], Except.error e)
  | Except.ok _ =>
    match env.connect with
    | Except.error e => (true, [], Except.error e)
    | Except.ok _ =>
      match env.read with
      | Except.error e => (true, [], Except.error e)
      | Except.ok (result, data) =>
        if result = 0 then
          let h := env.handle data
          (true, h.1, h.2)
        else (true, [], Except.ok ())

structure IterResult where
  writes : List PipeWrite
  pipeClosed : Bool
  continues : Bool

/-- One full iteration of the while True loop: the try body, the except clause
that logs and swallows any exception, and the finally clause that closes the
pipe handle when one was created. Control always returns to accept. -/
def runIteration (env : ConnEnv) : IterResult :=
  let b := connBody env
  let _logged := match b.2.2 with
    | Except.ok _ => ()
    | Except.error _ => ()
  { writes := b.2.1, pipeClosed := b.1, continues := true }

/-- The accept loop across a stream of connections: every connection event is
processed by one iteration. -/
def runServer (envs : List ConnEnv) : List IterResult :=
  envs.map runIteration

/-- json.loads of the received bytes followed by the dispatch, as executed
inside the try block of PipeServerThread.run (VoiceServer/VoiceServer.py).
json.loads is an external collaborator, passed in as a function. -/
def serverHandleVS (ctx : ServerCtx) (r : Reg)
    (json_loads : List Nat → Except String Request) (data : List Nat) :
    List PipeWrite × Reg × Except String Unit :=
  match json_loads data with
  | Except.error e => ([], r, Except.error e)
  | Except.ok req => dispatchVS ctx r req

/-- Same decode-plus-dispatch step for VoiceEngineServer.py. -/
def serverHandleVES (ctx : VESCtx)
    (json_loads : List Nat → Except String Request) (data : List Nat) :
    List PipeWrite × Except String Unit :=
  match json_loads data with
  | Except.error e => ([], Except.error e)
  | Except.ok req => dispatchVES ctx req

/-- A VoiceServer accept-loop iteration whose connect and read succeed, with
the given decode function and received bytes. -/
def mkVSEnv (ctx : ServerCtx) (r : Reg)
    (json_loads : List Nat → Except String Request) (msg : List Nat) : ConnEnv :=
  { create := Except.ok (), connect := Except.ok (), read := Except.ok (0, msg),
    handle := fun d =>
      let h := serverHandleVS ctx r json_loads d
      (h.1, h.2.2) }

/-- A VoiceEngineServer accept-loop iteration whose connect and read succeed. -/
def mkVESEnv (ctx : VESCtx)
    (json_loads : List Nat → Except String Request) (msg : List Nat) : ConnEnv :=
  { create := Except.ok (), connect := Except.ok (), read := Except.ok (0, msg),
    handle := serverHandleVES ctx json_loads }

/-- The empty system configuration store. -/
def emptyReg : Reg := { keys := fun _ => false, vals := fun _ _ => none }

/-- A server whose probing left zero backends available. -/
def ctxNoEngines : ServerCtx :=
  { engines := [], available_engines := [], libs_directory := "C:\\srv\\_libs" }

/-- A VoiceEngineServer with zero available backends. -/
def vesCtxNoEngines : VESCtx := { engines := [], available_engines := [] }

/-- The list_voices request naming a backend absent from the registry. -/
def missingReq : Request :=
  { action := some "list_voices", engine := some "Missing", voice_iso_code := none,
    voice := none, text := none, engine_voice_combo := none }

/-- A list_engines request. -/
def listEnginesReq : Request :=
  { action := some "list_engines", engine := none, voice_iso_code := none,
    voice := none, text := none, engine_voice_combo := none }

/-- A set_voice request carrying the given voice_iso_code value. -/
def setVoiceReq (v : String) : Request :=
  { action := some "set_voice", engine := none, voice_iso_code := some v,
    voice := none, text := none, engine_voice_combo := none }

/-- Bytes that are raw deflate output rather than UTF-8 JSON text. -/
def corruptBytes : List Nat := [120, 156, 99, 202, 72, 205]

/-- Modelled from the spec: json.loads of the standard library is an external
collaborator outside src; on a message that is not valid UTF-8 JSON text (such
as raw deflate-compressed bytes) it raises a decode error. This function
models its behavior on such undecodable inputs, the only inputs it is applied
to below. -/
def json_loads_fails : List Nat → Except String Request :=
  fun _ => Except.error "JSONDecodeError"

/-- Modelled from the spec: json.loads on the UTF-8 bytes of the request
naming the absent backend Missing yields that decoded request. Used only on
the bytes of that one message below. -/
def json_loads_missing : List Nat → Except String Request :=
  fun _ => Except.ok missingReq

/-- Modelled from the spec: zlib.decompress of the standard library is an
external collaborator outside src; corrupted compressed input makes it raise
zlib.error. Used only on such corrupted inputs below. -/
def zlib_fails : List Nat → Except String (List Nat) :=
  fun _ => Except.error "zlib.error"

/-- The VoiceServer iteration that receives an undecodable message. -/
def corruptEnv : ConnEnv :=
  mkVSEnv ctxNoEngines emptyReg json_loads_fails corruptBytes

/-- A backend entry for the VoiceEngineServer examples. -/
def vesEngineMS : VESEngine :=
  { name := "Microsoft", get_voices := GetVoicesResult.value (some []),
    set_voice_outcome := Except.ok () }

def vesCtxMS : VESCtx :=
  { engines := [vesEngineMS], available_engines := ["Microsoft"] }

/-- A speak_text request for an available backend. -/
def speakTextReq : Request :=
  { action := some "speak_text", engine := some "Microsoft", voice_iso_code := none,
    voice := none, text := some "hello", engine_voice_combo := none }

theorem oElse_assoc (a b c : Option String) :
    oElse (oElse a b) c = oElse a (oElse b c) := by
  cases a <;> rfl

theorem applyOp_vals (op : WriteOp) (r : Reg) (k m : String) :
    (applyOp op r).vals k m = oElse (valOf op k m) (r.vals k m) := by
  cases op with
  | ckey p => rfl
  | setv p n v =>
    simp only [applyOp, setValueEx, valOf]
    by_cases h : k = p ∧ m = n <;> simp [h, oElse]

theorem applyOps_vals (ops : List WriteOp) (r : Reg) (k m : String) :
    (applyOps ops r).vals k m = oElse (lastVal ops k m) (r.vals k m) := by
  induction ops generalizing r with
  | nil => rfl
  | cons op ops ih =>
    simp only [applyOps, lastVal]
    rw [ih, applyOp_vals, oElse_assoc]

theorem applyOp_keys (op : WriteOp) (r : Reg) (k : String) :
    (applyOp op r).keys k = (r.keys k || opMakesKey op k) := by
  cases op with
  | ckey p =>
    simp only [applyOp, createKey, opMakesKey]
    by_cases h : k = p <;> simp [h]
  | setv p n v => simp [applyOp, setValueEx, opMakesKey]

theorem applyOps_keys (ops : List WriteOp) (r : Reg) (k : String) :
    (applyOps ops r).keys k = (r.keys k || ops.any (fun op => opMakesKey op k)) := by
  induction ops generalizing r with
  | nil => simp [applyOps]
  | cons op ops ih =>
    simp only [applyOps, List.any_cons]
    rw [ih, applyOp_keys, Bool.or_assoc]

theorem applyOps_idem (ops : List WriteOp) (r : Reg) :
    applyOps ops (applyOps ops r) = applyOps ops r := by
  refine Reg.ext ?_ ?_
  · funext k
    simp only [applyOps_keys]
    rw [Bool.or_assoc, Bool.or_self]
  · funext k m
    simp only [applyOps_vals]
    cases h : lastVal ops k m <;> simp [oElse]

theorem sendChunks_nil : sendChunks [] = [] := by
  rw [sendChunks]
  simp

theorem sendChunks_cons (data : List Nat) (h : data ≠ []) :
    sendChunks data = data.take chunk_size :: sendChunks (data.drop chunk_size) := by
  rw [sendChunks]
  simp [h]

/-- Every chunk the encoder writes fits under the receiver's 64 KB break
threshold, so the receive loop stops after the first message: the composite of
receive after send keeps only the first chunk_size bytes of the payload. -/
theorem receiveLoop_send_large_data (data : List Nat) :
    receiveLoop (send_large_data data) = data.take chunk_size := by
  by_cases h : data = []
  · subst h
    rw [send_large_data, sendChunks_nil]
    rfl
  · rw [send_large_data, sendChunks_cons data h]
    have hlen : (data.take chunk_size).length < read_size := by
      have := List.length_take_le chunk_size data
      have h2 : chunk_size < read_size := by decide
      omega
    simp only [List.cons_append, receiveLoop]
    rw [if_pos hlen]

/-- Claim C2: the claim states the chunked encode to decode round-trip
reproduces the payload byte-for-byte for sizes 0, 1, chunk_size-1,
chunk_size, chunk_size+1 and 10 times chunk_size. In the code every encoder
chunk is at most 60 KB, below the receiver's 64 KB short-chunk threshold, so
the receive loop stops after the first chunk: at size chunk_size+1 decoding
returns only the first chunk_size bytes, while any payload no longer than
chunk_size does round-trip. -/
theorem chunked_roundtrip_loses_data :
    receiveLoop (send_large_data (List.replicate (chunk_size + 1) 0)) =
      List.replicate chunk_size 0 ∧
    receiveLoop (send_large_data (List.replicate (chunk_size + 1) 0)) ≠
      List.replicate (chunk_size + 1) 0 ∧
    (∀ data : List Nat, data.length ≤ chunk_size →
      receiveLoop (send_large_data data) = data) := by
  have h1 : receiveLoop (send_large_data (List.replicate (chunk_size + 1) 0)) =
      List.replicate chunk_size 0 := by
    have hmin : min chunk_size (chunk_size + 1) = chunk_size := by omega
    rw [receiveLoop_send_large_data, List.take_replicate, hmin]
  refine ⟨h1, ?_, ?_⟩
  · rw [h1]
    intro hEq
    have hl := congrArg List.length hEq
    simp only [List.length_replicate] at hl
    omega
  · intro data hlen
    rw [receiveLoop_send_large_data]
    exact List.take_of_length_le hlen

/-- Witness for the round-trip conjunct of chunked_roundtrip_loses_data at a
concrete short payload. -/
theorem chunked_roundtrip_loses_data_witness :
    receiveLoop (send_large_data [1, 2, 3]) = [1, 2, 3] :=
  chunked_roundtrip_loses_data.2.2 [1, 2, 3] (by decide)

/-- Claim C8: no exception raised while handling one connection terminates
the accept loop: every iteration swallows its exception outcome and
continues, the pipe handle is closed exactly when it was created, and the
server processes every connection event in the stream. -/
theorem accept_loop_survives :
    (∀ env : ConnEnv, (runIteration env).continues = true) ∧
    (∀ env : ConnEnv, (runIteration env).pipeClosed = (connBody env).1) ∧
    (∀ envs : List ConnEnv, (runServer envs).length = envs.length) := by
  refine ⟨fun env => rfl, fun env => rfl, fun envs => ?_⟩
  simp [runServer]

/-- Claim C1: the claim states a list_voices request naming an absent backend
always gets exactly one error response before the connection closes. On the
code, both server revisions take the branch guarded by engine_name in
self.engines and write nothing at all when the lookup fails: the dispatch
produces zero pipe writes and the connection is then closed. -/
theorem list_voices_missing_engine_silent :
    dispatchVS ctxNoEngines emptyReg missingReq = ([], emptyReg, Except.ok ()) ∧
    dispatchVES vesCtxNoEngines missingReq = ([], Except.ok ()) ∧
    (runIteration (mkVSEnv ctxNoEngines emptyReg json_loads_missing [123])).writes = [] ∧
    (runIteration (mkVSEnv ctxNoEngines emptyReg json_loads_missing [123])).pipeClosed = true :=
  ⟨rfl, rfl, rfl, rfl⟩

/-- Claim C7 counterexample: on an inbound message whose bytes cannot be
decoded (corrupted compressed input), the server does not answer with an
error response: the iteration performs zero writes and closes the pipe,
refuting the claim that an error Response is written on that connection. -/
theorem decode_failure_no_error_response :
    (runIteration corruptEnv).writes = [] ∧
    (runIteration corruptEnv).pipeClosed = true ∧
    (runIteration corruptEnv).continues = true :=
  ⟨rfl, rfl, rfl⟩

/-- Claim C7 as amended: a decompression failure is reported as a CodecError
value (decompress_response returns None rather than raising), and the server,
on an inbound message whose decode raises, writes no response at all: it
catches the exception, closes the connection, and the accept loop continues. -/
theorem codec_error_and_silent_close
    (zlib_decompress : List Nat → Except String (List Nat)) (data : List Nat)
    (e : String) (hz : zlib_decompress data = Except.error e)
    (ctx : ServerCtx) (r : Reg) (json_loads : List Nat → Except String Request)
    (msg : List Nat) (e2 : String) (hp : json_loads msg = Except.error e2) :
    decompress_response zlib_decompress data = none ∧
    (runIteration (mkVSEnv ctx r json_loads msg)).writes = [] ∧
    (runIteration (mkVSEnv ctx r json_loads msg)).pipeClosed = true ∧
    (runIteration (mkVSEnv ctx r json_loads msg)).continues = true := by
  refine ⟨?_, ?_, rfl, rfl⟩
  · simp [decompress_response, hz]
  · simp [runIteration, connBody, mkVSEnv, serverHandleVS, hp]

/-- Witness for codec_error_and_silent_close at the corrupted input. -/
theorem codec_error_and_silent_close_witness :
    decompress_response zlib_fails corruptBytes = none ∧
    (runIteration (mkVSEnv ctxNoEngines emptyReg json_loads_fails corruptBytes)).writes = [] ∧
    (runIteration (mkVSEnv ctxNoEngines emptyReg json_loads_fails corruptBytes)).pipeClosed = true ∧
    (runIteration (mkVSEnv ctxNoEngines emptyReg json_loads_fails corruptBytes)).continues = true :=
  codec_error_and_silent_close zlib_fails corruptBytes "zlib.error" rfl
    ctxNoEngines emptyReg json_loads_fails corruptBytes "JSONDecodeError" rfl

/-- Claim C10: in VoiceEngineServer.py any speak_text request naming an
available backend raises TypeError at the dispatch call site, because
self.speak_text_streamed(pipe, tts_engine, text) passes three arguments to a
method declared with two; the exception is caught by the loop and the
connection is closed with no audio and no response written. -/
theorem speak_text_arity_mismatch (ctx : VESCtx) (req : Request)
    (engine_name : String) (eng : VESEngine) (t : String)
    (ha : req.action = some "speak_text") (he : req.engine = some engine_name)
    (hf : findEngineVES ctx engine_name = some eng) (ht : req.text = some t) :
    dispatchVES ctx req = ([], Except.error "TypeError: wrong number of arguments") ∧
    (runIteration (mkVESEnv ctx (fun _ => Except.ok req) [])).writes = [] ∧
    (runIteration (mkVESEnv ctx (fun _ => Except.ok req) [])).pipeClosed = true := by
  have hd : dispatchVES ctx req =
      ([], Except.error "TypeError: wrong number of arguments") := by
    simp [dispatchVES, ha, he, hf, ht, callPy, speak_text_streamed_paramCount,
      speak_text_call_argCount]
  refine ⟨hd, ?_, rfl⟩
  simp [runIteration, connBody, mkVESEnv, serverHandleVES, hd]

/-- Witness for speak_text_arity_mismatch at a concrete context and request. -/
theorem speak_text_arity_mismatch_witness :
    dispatchVES vesCtxMS speakTextReq =
      ([], Except.error "TypeError: wrong number of arguments") ∧
    (runIteration (mkVESEnv vesCtxMS (fun _ => Except.ok speakTextReq) [])).writes = [] ∧
    (runIteration (mkVESEnv vesCtxMS (fun _ => Except.ok speakTextReq) [])).pipeClosed = true :=
  speak_text_arity_mismatch vesCtxMS speakTextReq "Microsoft" vesEngineMS "hello"
    rfl rfl rfl rfl

/-- Claim C6: a list_voices call on an available backend whose get_voices
returns an empty list or None yields the explicit error response No voices
found, in both server revisions, and never the success response with an
empty voice list. -/
theorem fetch_voices_empty_is_error (gv : GetVoicesResult)
    (h : gv = GetVoicesResult.value none ∨ gv = GetVoicesResult.value (some [])) :
    fetch_voices gv = errorResp "No voices found" ∧
    fetch_voicesVS gv = [PipeWrite.chunked (errorResp "No voices found")] ∧
    fetch_voices gv ≠ successVoicesResp [] := by
  have hne : errorResp "No voices found" ≠ successVoicesResp [] := by
    simp [errorResp, successVoicesResp]
  rcases h with h | h <;> subst h <;> exact ⟨rfl, rfl, hne⟩

/-- Witness for fetch_voices_empty_is_error at the empty voice list. -/
theorem fetch_voices_empty_is_error_witness :
    fetch_voices (GetVoicesResult.value (some [])) = errorResp "No voices found" ∧
    fetch_voicesVS (GetVoicesResult.value (some [])) =
      [PipeWrite.chunked (errorResp "No voices found")] ∧
    fetch_voices (GetVoicesResult.value (some [])) ≠ successVoicesResp [] :=
  fetch_voices_empty_is_error (GetVoicesResult.value (some [])) (Or.inr rfl)

theorem tokensPath_ne (t : String) : tokensPath64 t ≠ tokensPath32 t := by
  intro h
  have h2 := congrArg String.length h
  rw [tokensPath64, tokensPath32, String.length_append, String.length_append] at h2
  have h3 : ("SOFTWARE\\Microsoft\\Speech\\Voices\\Tokens\\" : String).length =
      ("SOFTWARE\\WOW6432Node\\Microsoft\\Speech\\Voices\\Tokens\\" : String).length := by
    omega
  exact absurd h3 (by decide)

theorem tp64_eq_tp32_iff (t : String) : (tokensPath64 t = tokensPath32 t) ↔ False := by
  simp [tokensPath_ne t]

theorem tp32_eq_tp64_iff (t : String) : (tokensPath32 t = tokensPath64 t) ↔ False := by
  simp
  exact fun h => tokensPath_ne t h.symm

/-- Claim C3: list_engines answers with the available-engine names verbatim,
and init_engines keeps exactly the configured backends whose probe succeeded,
in the fixed registration order, each backend depending only on its own
configuration membership and probe outcome; with every probe failing the
available set is empty. -/
theorem list_engines_exactly_probed :
    (∀ (ctx : ServerCtx) (r : Reg),
      dispatchVS ctx r listEnginesReq =
        ([PipeWrite.direct (enginesResp ctx.available_engines)], r, Except.ok ())) ∧
    (∀ (probe : String → Bool) (engines : List String),
      init_engines probe engines =
        knownEngines.filter (fun nm => engines.contains nm && probe nm)) ∧
    (∀ (probe : String → Bool) (sections : List String),
      init_engines probe (load_config sections) =
        knownEngines.filter (fun nm => sections.contains nm && probe nm)) ∧
    (∀ engines : List String, init_engines (fun _ => false) engines = []) := by
  refine ⟨fun ctx r => rfl, ?_, ?_, ?_⟩
  · intro probe engines
    by_cases hM : "Microsoft" ∈ engines <;> by_cases hG : "Google" ∈ engines <;>
      by_cases hP : "Polly" ∈ engines <;> by_cases hS : "SherpaOnnx" ∈ engines <;>
      cases pM : probe "Microsoft" <;> cases pG : probe "Google" <;>
      cases pP : probe "Polly" <;> cases pS : probe "SherpaOnnx" <;>
      simp [init_engines, knownEngines, hM, hG, hP, hS, pM, pG, pP, pS]
  · intro probe sections
    by_cases hM : "Microsoft" ∈ sections <;> by_cases hG : "Google" ∈ sections <;>
      by_cases hP : "Polly" ∈ sections <;> by_cases hS : "SherpaOnnx" ∈ sections <;>
      cases pM : probe "Microsoft" <;> cases pG : probe "Google" <;>
      cases pP : probe "Polly" <;> cases pS : probe "SherpaOnnx" <;>
      simp [init_engines, load_config, knownEngines, hM, hG, hP, hS, pM, pG, pP, pS]
  · intro engines
    by_cases hM : "Microsoft" ∈ engines <;> by_cases hG : "Google" ∈ engines <;>
      by_cases hP : "Polly" ∈ engines <;> by_cases hS : "SherpaOnnx" ∈ engines <;>
      simp [init_engines, hM, hG, hP, hS]

/-- State and writes of one set_voice handling on a well-formed voice id. -/
theorem handleSetVoice_state (libs v e n : String) (r : Reg)
    (h : splitFirstDash v = some (e, n)) :
    (handleSetVoice libs (setVoiceReq v) r).2.1 =
      applyOps (voiceOps libs e n)
        (if is_engine_registered r sapi64Path then r
         else applyOps (sapiOps (libs ++ "\\pysapittsengine.dll")) r) ∧
    (handleSetVoice libs (setVoiceReq v) r).1 =
      [PipeWrite.direct (Json.obj [("status", Json.str "success")])] := by
  constructor <;>
    simp [handleSetVoice, setVoiceReq, register_voice, h, register_sapi_engine]

/-- After one set_voice handling, the shared engine's 64-bit InprocServer32
key exists, whatever it was before. -/
theorem handleSetVoice_keyMade (libs e n : String) (r0 : Reg) :
    is_engine_registered
      (applyOps (voiceOps libs e n)
        (if is_engine_registered r0 sapi64Path then r0
         else applyOps (sapiOps (libs ++ "\\pysapittsengine.dll")) r0))
      sapi64Path = true := by
  simp only [is_engine_registered]
  rw [applyOps_keys]
  by_cases hc : r0.keys sapi64Path = true
  · rw [if_pos hc]
    simp [hc]
  · rw [if_neg hc]
    rw [applyOps_keys]
    simp [sapiOps, opMakesKey]

/-- Claim C4: registering the shared SAPI engine twice leaves the store as a
single registration does; registering the same voice id twice is idempotent
on the store; and a full set_voice handled twice with the same request leaves
the persisted state of the single handling, the second run answering with the
success response. -/
theorem registration_idempotent (engine_dll libs v e n : String) (r : Reg)
    (h : splitFirstDash v = some (e, n)) :
    (register_sapi_engine engine_dll (register_sapi_engine engine_dll r).1).1 =
      (register_sapi_engine engine_dll r).1 ∧
    (∃ r1 r2 : Reg, register_voice libs (some v) r = Except.ok (r1, true) ∧
      register_voice libs (some v) r1 = Except.ok (r2, true) ∧ r2 = r1) ∧
    (handleSetVoice libs (setVoiceReq v)
        ((handleSetVoice libs (setVoiceReq v) r).2.1)).2.1 =
      (handleSetVoice libs (setVoiceReq v) r).2.1 ∧
    (handleSetVoice libs (setVoiceReq v)
        ((handleSetVoice libs (setVoiceReq v) r).2.1)).1 =
      [PipeWrite.direct (Json.obj [("status", Json.str "success")])] := by
  have hs1 := (handleSetVoice_state libs v e n r h).1
  have hs2 := (handleSetVoice_state libs v e n
    ((handleSetVoice libs (setVoiceReq v) r).2.1) h).1
  refine ⟨?_, ?_, ?_, ?_⟩
  · simp only [register_sapi_engine]
    exact applyOps_idem _ _
  · exact ⟨applyOps (voiceOps libs e n) r,
      applyOps (voiceOps libs e n) (applyOps (voiceOps libs e n) r),
      by simp [register_voice, h], by simp [register_voice, h],
      applyOps_idem _ _⟩
  · rw [hs2, hs1, if_pos (handleSetVoice_keyMade libs e n r)]
    exact applyOps_idem _ _
  · exact (handleSetVoice_state libs v e n
      ((handleSetVoice libs (setVoiceReq v) r).2.1) h).2

/-- Witness for registration_idempotent at a concrete voice id and the empty
store. -/
theorem registration_idempotent_witness :
    (register_sapi_engine "d.dll" (register_sapi_engine "d.dll" emptyReg).1).1 =
      (register_sapi_engine "d.dll" emptyReg).1 ∧
    (∃ r1 r2 : Reg,
      register_voice "C:\\libs" (some "Microsoft-Jenny") emptyReg = Except.ok (r1, true) ∧
      register_voice "C:\\libs" (some "Microsoft-Jenny") r1 = Except.ok (r2, true) ∧ r2 = r1) ∧
    (handleSetVoice "C:\\libs" (setVoiceReq "Microsoft-Jenny")
        ((handleSetVoice "C:\\libs" (setVoiceReq "Microsoft-Jenny") emptyReg).2.1)).2.1 =
      (handleSetVoice "C:\\libs" (setVoiceReq "Microsoft-Jenny") emptyReg).2.1 ∧
    (handleSetVoice "C:\\libs" (setVoiceReq "Microsoft-Jenny")
        ((handleSetVoice "C:\\libs" (setVoiceReq "Microsoft-Jenny") emptyReg).2.1)).1 =
      [PipeWrite.direct (Json.obj [("status", Json.str "success")])] :=
  registration_idempotent "d.dll" "C:\\libs" "Microsoft-Jenny" "Microsoft" "Jenny"
    emptyReg (by decide)

/-- Claim C5: every record persisted by a successful set_voice carries the
full attribute schema under both the 64-bit and the 32-bit token path, with
the fixed placeholder values for Language, Gender and Age. -/
theorem set_voice_record_schema (libs v e n : String) (r : Reg)
    (h : splitFirstDash v = some (e, n)) :
    ∃ r2 : Reg, register_voice libs (some v) r = Except.ok (r2, true) ∧
      (r2.keys (tokensPath64 ("PYTTS-" ++ e)) = true ∧
       r2.vals (tokensPath64 ("PYTTS-" ++ e)) "" = some (e ++ " - " ++ n ++ " (409)") ∧
       r2.vals (tokensPath64 ("PYTTS-" ++ e)) "Name" = some n ∧
       r2.vals (tokensPath64 ("PYTTS-" ++ e)) "Vendor" = some e ∧
       r2.vals (tokensPath64 ("PYTTS-" ++ e)) "Language" = some "409" ∧
       r2.vals (tokensPath64 ("PYTTS-" ++ e)) "Gender" = some "Female" ∧
       r2.vals (tokensPath64 ("PYTTS-" ++ e)) "Age" = some "Adult" ∧
       r2.vals (tokensPath64 ("PYTTS-" ++ e)) "Path" = some libs ∧
       r2.vals (tokensPath64 ("PYTTS-" ++ e)) "Module" = some "voices" ∧
       r2.vals (tokensPath64 ("PYTTS-" ++ e)) "Class" = some (e ++ "Voice")) ∧
      (r2.keys (tokensPath32 ("PYTTS-" ++ e)) = true ∧
       r2.vals (tokensPath32 ("PYTTS-" ++ e)) "" = some (e ++ " - " ++ n ++ " (409)") ∧
       r2.vals (tokensPath32 ("PYTTS-" ++ e)) "Name" = some n ∧
       r2.vals (tokensPath32 ("PYTTS-" ++ e)) "Vendor" = some e ∧
       r2.vals (tokensPath32 ("PYTTS-" ++ e)) "Language" = some "409" ∧
       r2.vals (tokensPath32 ("PYTTS-" ++ e)) "Gender" = some "Female" ∧
       r2.vals (tokensPath32 ("PYTTS-" ++ e)) "Age" = some "Adult" ∧
       r2.vals (tokensPath32 ("PYTTS-" ++ e)) "Path" = some libs ∧
       r2.vals (tokensPath32 ("PYTTS-" ++ e)) "Module" = some "voices" ∧
       r2.vals (tokensPath32 ("PYTTS-" ++ e)) "Class" = some (e ++ "Voice")) := by
  refine ⟨applyOps (voiceOps libs e n) r, by simp [register_voice, h], ?_, ?_⟩ <;>
    simp [applyOps_keys, applyOps_vals, voiceOps, voiceKeyOps, lastVal, valOf, oElse,
      opMakesKey, tp64_eq_tp32_iff, tp32_eq_tp64_iff]

/-- Witness for set_voice_record_schema at a concrete voice id. -/
theorem set_voice_record_schema_witness :
    ∃ r2 : Reg,
      register_voice "C:\\libs" (some "Microsoft-Jenny") emptyReg = Except.ok (r2, true) ∧
      (r2.keys (tokensPath64 ("PYTTS-" ++ "Microsoft")) = true ∧
       r2.vals (tokensPath64 ("PYTTS-" ++ "Microsoft")) "" =
         some ("Microsoft" ++ " - " ++ "Jenny" ++ " (409)") ∧
       r2.vals (tokensPath64 ("PYTTS-" ++ "Microsoft")) "Name" = some "Jenny" ∧
       r2.vals (tokensPath64 ("PYTTS-" ++ "Microsoft")) "Vendor" = some "Microsoft" ∧
       r2.vals (tokensPath64 ("PYTTS-" ++ "Microsoft")) "Language" = some "409" ∧
       r2.vals (tokensPath64 ("PYTTS-" ++ "Microsoft")) "Gender" = some "Female" ∧
       r2.vals (tokensPath64 ("PYTTS-" ++ "Microsoft")) "Age" = some "Adult" ∧
       r2.vals (tokensPath64 ("PYTTS-" ++ "Microsoft")) "Path" = some "C:\\libs" ∧
       r2.vals (tokensPath64 ("PYTTS-" ++ "Microsoft")) "Module" = some "voices" ∧
       r2.vals (tokensPath64 ("PYTTS-" ++ "Microsoft")) "Class" =
         some ("Microsoft" ++ "Voice")) ∧
      (r2.keys (tokensPath32 ("PYTTS-" ++ "Microsoft")) = true ∧
       r2.vals (tokensPath32 ("PYTTS-" ++ "Microsoft")) "" =
         some ("Microsoft" ++ " - " ++ "Jenny" ++ " (409)") ∧
       r2.vals (tokensPath32 ("PYTTS-" ++ "Microsoft")) "Name" = some "Jenny" ∧
       r2.vals (tokensPath32 ("PYTTS-" ++ "Microsoft")) "Vendor" = some "Microsoft" ∧
       r2.vals (tokensPath32 ("PYTTS-" ++ "Microsoft")) "Language" = some "409" ∧
       r2.vals (tokensPath32 ("PYTTS-" ++ "Microsoft")) "Gender" = some "Female" ∧
       r2.vals (tokensPath32 ("PYTTS-" ++ "Microsoft")) "Age" = some "Adult" ∧
       r2.vals (tokensPath32 ("PYTTS-" ++ "Microsoft")) "Path" = some "C:\\libs" ∧
       r2.vals (tokensPath32 ("PYTTS-" ++ "Microsoft")) "Module" = some "voices" ∧
       r2.vals (tokensPath32 ("PYTTS-" ++ "Microsoft")) "Class" =
         some ("Microsoft" ++ "Voice")) :=
  set_voice_record_schema "C:\\libs" "Microsoft-Jenny" "Microsoft" "Jenny" emptyReg
    (by decide)

/-- Claim C9: the persisted token depends only on the part of the voice id
before its first dash, so two voices of the same backend are written under
the same token key paths, and the second registration overwrites the record
of the first. -/
theorem set_voice_token_collision (libs b n1 n2 v1 v2 : String) (r : Reg)
    (h1 : splitFirstDash v1 = some (b, n1)) (h2 : splitFirstDash v2 = some (b, n2)) :
    ∃ r1 r2 : Reg,
      register_voice libs (some v1) r = Except.ok (r1, true) ∧
      register_voice libs (some v2) r1 = Except.ok (r2, true) ∧
      r2.vals (tokensPath64 ("PYTTS-" ++ b)) "Name" = some n2 ∧
      r2.vals (tokensPath32 ("PYTTS-" ++ b)) "Name" = some n2 ∧
      (n1 ≠ n2 → r2.vals (tokensPath64 ("PYTTS-" ++ b)) "Name" ≠ some n1) := by
  have hv64 : (applyOps (voiceOps libs b n2) (applyOps (voiceOps libs b n1) r)).vals
      (tokensPath64 ("PYTTS-" ++ b)) "Name" = some n2 := by
    simp [applyOps_vals, voiceOps, voiceKeyOps, lastVal, valOf, oElse,
      tp64_eq_tp32_iff, tp32_eq_tp64_iff]
  have hv32 : (applyOps (voiceOps libs b n2) (applyOps (voiceOps libs b n1) r)).vals
      (tokensPath32 ("PYTTS-" ++ b)) "Name" = some n2 := by
    simp [applyOps_vals, voiceOps, voiceKeyOps, lastVal, valOf, oElse,
      tp64_eq_tp32_iff, tp32_eq_tp64_iff]
  refine ⟨applyOps (voiceOps libs b n1) r,
    applyOps (voiceOps libs b n2) (applyOps (voiceOps libs b n1) r),
    by simp [register_voice, h1], by simp [register_voice, h2], hv64, hv32, ?_⟩
  intro hne
  rw [hv64]
  intro hc
  exact hne (Option.some.inj hc).symm

/-- Witness for set_voice_token_collision: two voices of the Microsoft
backend land on the same token key and the second overwrites the first. -/
theorem set_voice_token_collision_witness :
    ∃ r1 r2 : Reg,
      register_voice "C:\\libs" (some "Microsoft-Jenny") emptyReg = Except.ok (r1, true) ∧
      register_voice "C:\\libs" (some "Microsoft-Aria") r1 = Except.ok (r2, true) ∧
      r2.vals (tokensPath64 ("PYTTS-" ++ "Microsoft")) "Name" = some "Aria" ∧
      r2.vals (tokensPath32 ("PYTTS-" ++ "Microsoft")) "Name" = some "Aria" ∧
      ("Jenny" ≠ "Aria" →
        r2.vals (tokensPath64 ("PYTTS-" ++ "Microsoft")) "Name" ≠ some "Jenny") :=
  set_voice_token_collision "C:\\libs" "Microsoft" "Jenny" "Aria"
    "Microsoft-Jenny" "Microsoft-Aria" emptyReg (by decide) (by decide)
